import Mathlib

/-!
Shallow embedding of the ENS faucet worker (ensdomains/ens-faucet-worker).

Two source snapshots are embedded:
* `Faucet` — the multi-network handler in `src/index.ts` together with the
  response helpers in `src/helpers.ts`;
* `Faucet.SingleNet` — the older single-network handler that shares the same
  response helpers.

External collaborators (the Defender relayer, the `eth_getBalance` chain query,
the ENS subgraph, the `USED_ADDRESS_KV` ledger, `viem`'s `getAddress`, and the
clock `Date.now()`) are modelled as an explicit `World` record injected into the
handler.  KV values are stored by the source as `Date.now().toString()` and read
back through `parseInt`, so they are modelled directly as the parsed `Nat`
timestamps.  The handler returns, next to the HTTP response, an `Effects`
record listing the collaborator calls it performed, so that frame conditions
("no ledger write happened") are statable.
-/

namespace Faucet

/-- JSON-RPC ids: `string | number | null`. -/
inductive RpcId where
  | str (s : String)
  | num (n : Int)
  | null
deriving DecidableEq, Repr

/-- The shapes of `result` objects produced by the multi-network handler. -/
inductive RpcResult where
  | statusResult (status : String) (amount : String) (interval : Nat)
  | getAddressResult (eligible : Bool) (amount : String) (interval : Nat) (next : Nat) (status : String)
  | txResult (id : String)
deriving DecidableEq, Repr

/-- A JSON-RPC response payload: either `{result: ...}` or `{error: {code, message}}`. -/
inductive RpcPayload (ρ : Type) where
  | success (result : ρ)
  | rpcError (code : Int) (message : String)
deriving DecidableEq, Repr

/-- The string-valued bodies handed to `_makeResponse` at its call sites: either a
plain message string, or the string `JSON.stringify({jsonrpc: "2.0", ...payload, id})`
produced inside `_makeRpcResponse` (kept structured here). -/
inductive BodyInit0 (ρ : Type) where
  | str (s : String)
  | rpcJson (payload : RpcPayload ρ) (id : RpcId)
deriving DecidableEq, Repr

/-- The body finally placed in the `Response`: `null`, the input wrapped as
`JSON.stringify({message: body})`, or the input passed through unchanged. -/
inductive OutBody (ρ : Type) where
  | noBody
  | messageWrapped (b : BodyInit0 ρ)
  | passthrough (b : BodyInit0 ρ)
deriving DecidableEq, Repr

/-- A produced `Response`: status code plus the three CORS headers that
`_makeResponse` always attaches (all call sites pass `headers = undefined`,
so these are the only headers). -/
structure HttpResponse (ρ : Type) where
  status : Nat
  body : OutBody ρ
  allowOrigin : String
  allowMethods : String
  allowHeaders : String
deriving DecidableEq, Repr

/-- helpers.ts lines 20-28: the `Access-Control-Allow-Origin` value, starting from
the fixed `corsHeaders` default and overridden for the allow-listed origins. -/
def allowOriginFor (origin : String) : String :=
  if origin = "http://localhost:3000" then "http://localhost:3000"
  else if origin.endsWith ("ens-app-v3.pages.dev") || origin.endsWith ("ens.domains") then origin
  else "https://alpha.ens.domains"

/-- helpers.ts `_makeResponse`: wraps a string body as `{message: body}` unless
`bypassStringify`; `status === undefined` defaults to 200 in `new Response`. -/
def mkResponse (ρ : Type) (origin : String) (body : Option (BodyInit0 ρ))
    (status : Option Nat) (bypassStringify : Bool) : HttpResponse ρ :=
  { status := status.getD 200
    body :=
      match body with
      | Option.none => OutBody.noBody
      | some b => if bypassStringify then OutBody.passthrough b else OutBody.messageWrapped b
    allowOrigin := allowOriginFor origin
    allowMethods := "POST, OPTIONS"
    allowHeaders := "Content-Type" }

/-- helpers.ts `_makeRpcResponse`: stringifies `{jsonrpc: "2.0", ...body, id}` and
passes it through `_makeResponse` with `bypassStringify = true`. -/
def mkRpcResponse (ρ : Type) (origin : String) (payload : RpcPayload ρ)
    (id : RpcId) (status : Option Nat) : HttpResponse ρ :=
  mkResponse ρ origin (some (BodyInit0.rpcJson payload id)) status true

/-- The parsed JSON-RPC request body. `params` is `none` when the field is
absent or JSON `null` (falsy); `params[0]` being out of range models
`body.params[0] === undefined`. -/
structure JsonRPC where
  jsonrpc : String
  id : RpcId
  method : String
  params : Option (List String)
deriving DecidableEq, Repr

/-- The pieces of the incoming HTTP request the handler inspects.  `paths` is
`url.pathname.split("/").filter(p => p)`; `origin` is
`request.headers.get("origin") || ""`; `body` is `none` when `request.json()`
rejects. -/
structure FaucetRequest where
  paths : List String
  httpMethod : String
  origin : String
  body : Option JsonRPC
deriving Repr

/-- The subgraph's `account` object: `domains`, `registrations`, `wrappedDomains`. -/
structure AccountData where
  domains : List String
  registrations : List String
  wrappedDomains : List String
deriving DecidableEq, Repr

/-- index.ts line 28: `SUPPORTED_NETWORKS = ["goerli", "sepolia"]`. -/
inductive SupportedNetwork where
  | goerli
  | sepolia
deriving DecidableEq, Repr

def networkName : SupportedNetwork → String
  | SupportedNetwork.goerli => "goerli"
  | SupportedNetwork.sepolia => "sepolia"

/-- index.ts lines 30-33: claim intervals in milliseconds. -/
def CLAIM_INTERVAL_MAP : SupportedNetwork → Nat
  | SupportedNetwork.goerli => 1000 * 60 * 60 * 24 * 7
  | SupportedNetwork.sepolia => 1000 * 60 * 60 * 24 * 30

/-- index.ts lines 35-38: claim amounts in wei. -/
def CLAIM_AMOUNT_MAP : SupportedNetwork → Nat
  | SupportedNetwork.goerli => 500000000000000000
  | SupportedNetwork.sepolia => 250000000000000000

/-- index.ts line 23: the three supported JSON-RPC methods. -/
def SUPPORTED_METHODS : List String :=
  ["faucet_status", "faucet_getAddress", "faucet_request"]

/-- index.ts lines 121-124: an empty path defaults to goerli, otherwise the first
segment must be found among `SUPPORTED_NETWORKS`. -/
def parseNetwork : List String → Option SupportedNetwork
  | [] => some SupportedNetwork.goerli
  | p :: _ =>
    if p = "goerli" then some SupportedNetwork.goerli
    else if p = "sepolia" then some SupportedNetwork.sepolia
    else Option.none

/-- viem's `toHex` on a bigint: `0x` followed by lowercase hex digits. -/
def toHex (n : Nat) : String := "0x" ++ String.mk (Nat.toDigits 16 n)

/-- JavaScript's `toLowerCase()` (ASCII range), modelled character-wise over the
string's characters. -/
def jsToLower (s : String) : String := String.mk (s.data.map Char.toLower)

/-- The external collaborators, injected as an explicit record:
relayer info, relayer balance, `viem.getAddress` (checksummed result, `none` when
it throws), the KV ledger, the subgraph (indexed by the queried lowercase account
id), the relayer `sendTransaction` result, and the clock. -/
structure World where
  relayerPaused : Bool
  relayerAddress : String
  balance : Nat
  getAddr : String → Option String
  kv : String → Option Nat
  account : String → Option AccountData
  txId : Option String
  now : Nat

/-- index.ts lines 63-105 `checkHasName`: query the subgraph for the lowercased
address; absent account means `false`, otherwise true when any of the three
lists is non-empty. -/
def checkHasName (w : World) (address : String) : Bool :=
  match w.account (jsToLower address) with
  | Option.none => false
  | some a =>
    a.domains.length > 0 || a.registrations.length > 0 || a.wrappedDomains.length > 0

/-- A `relayer.sendTransaction` call's arguments (`toAddr` is the `to` field). -/
structure TxRequest where
  toAddr : String
  value : String
  speed : String
  gasLimit : Nat
deriving DecidableEq, Repr

/-- A `USED_ADDRESS_KV.put` call: key, stored timestamp, `expirationTtl` in seconds. -/
structure KvPut where
  key : String
  value : Nat
  expirationTtl : Nat
deriving DecidableEq, Repr

/-- The collaborator calls a handler run performed. -/
structure Effects where
  gotRelayer : Bool
  queriedBalance : Bool
  kvGets : List String
  accountQueries : List String
  sentTxs : List TxRequest
  kvPuts : List KvPut
deriving DecidableEq, Repr

def noEffects : Effects :=
  { gotRelayer := false, queriedBalance := false, kvGets := [], accountQueries := [],
    sentTxs := [], kvPuts := [] }

/-- index.ts lines 165-175 `returnStatus`: the status response the handler
constructs for `faucet_status`.  NOTE: at all three call sites (lines 179, 191,
194) the source reads `if (returnOnStatusChange) returnStatus();` — the
constructed `Response` is discarded, not returned, so control always falls
through (see the handler below). -/
def returnStatus (origin status : String) (claimAmount claimInterval : Nat)
    (id : RpcId) : HttpResponse RpcResult :=
  mkRpcResponse RpcResult origin
    (RpcPayload.success (RpcResult.statusResult status (toHex claimAmount) claimInterval))
    id Option.none

/-- index.ts lines 107-303, the `fetch` handler of the multi-network snapshot,
as a function of the request and the collaborator world.  Returns the response
together with the collaborator calls performed. -/
def fetchHandler (req : FaucetRequest) (w : World) : HttpResponse RpcResult × Effects :=
  match parseNetwork req.paths with
  | Option.none =>
    (mkResponse RpcResult req.origin (some (BodyInit0.str ("Not Found"))) (some 404) false,
      noEffects)
  | some network =>
  if req.httpMethod = "OPTIONS" then
    (mkResponse RpcResult req.origin Option.none Option.none false, noEffects)
  else if req.httpMethod ≠ "POST" then
    (mkResponse RpcResult req.origin
      (some (BodyInit0.str ("Unsupported method: " ++ req.httpMethod))) (some 405) false,
      noEffects)
  else
  match req.body with
  | Option.none =>
    (mkRpcResponse RpcResult req.origin (RpcPayload.rpcError (-32600) "Invalid Request")
      RpcId.null (some 400), noEffects)
  | some body =>
  if body.jsonrpc = "" || body.method = "" || body.params.isNone then
    (mkRpcResponse RpcResult req.origin (RpcPayload.rpcError (-32600) "Invalid Request")
      body.id (some 400), noEffects)
  else if ¬ SUPPORTED_METHODS.contains body.method then
    (mkRpcResponse RpcResult req.origin (RpcPayload.rpcError (-32601) "Method not found")
      body.id (some 404), noEffects)
  else
  let claimAmount := CLAIM_AMOUNT_MAP network
  let claimInterval := CLAIM_INTERVAL_MAP network
  -- line 177: `if (item.paused) { status = "paused"; if (returnOnStatusChange) returnStatus(); }`
  -- the returnStatus() call's value is discarded in the source, so no early return here
  let status1 := if w.relayerPaused then "paused" else "ok"
  -- lines 182-192: balance query, then the same discarded conditional call
  let status2 := if claimAmount > w.balance then "out of funds" else status1
  -- line 194: `if (returnOnStatusChange) returnStatus();` — again discarded, falls through
  let eff0 : Effects := { noEffects with gotRelayer := true, queriedBalance := true }
  match (body.params.getD []).head? with
  | Option.none =>
    -- getAddress(undefined) throws
    (mkRpcResponse RpcResult req.origin (RpcPayload.rpcError (-32000) "Invalid address")
      body.id (some 400), eff0)
  | some raw =>
  match w.getAddr raw with
  | Option.none =>
    (mkRpcResponse RpcResult req.origin (RpcPayload.rpcError (-32000) "Invalid address")
      body.id (some 400), eff0)
  | some address =>
  let key := networkName network ++ "/" ++ address
  let addressLastUsed := (w.kv key).getD 0
  let hasClaimed :=
    addressLastUsed != 0 && decide ((w.now : Int) - (addressLastUsed : Int) < (claimInterval : Int))
  let hasName := checkHasName w address
  let eff1 : Effects := { eff0 with kvGets := [key], accountQueries := [jsToLower address] }
  if body.method = "faucet_getAddress" then
    if hasClaimed then
      (mkRpcResponse RpcResult req.origin
        (RpcPayload.success (RpcResult.getAddressResult false (toHex claimAmount)
          claimInterval (addressLastUsed + claimInterval) status2))
        body.id Option.none, eff1)
    else
      (mkRpcResponse RpcResult req.origin
        (RpcPayload.success (RpcResult.getAddressResult hasName (toHex claimAmount)
          claimInterval 0 status2))
        body.id Option.none, eff1)
  else
  if hasClaimed then
    (mkRpcResponse RpcResult req.origin
      (RpcPayload.rpcError (-32000) "Address has already claimed") body.id (some 400), eff1)
  else if !hasName then
    (mkRpcResponse RpcResult req.origin
      (RpcPayload.rpcError (-32000) "Address does not own a name on mainnet")
      body.id (some 400), eff1)
  else if status2 ≠ "ok" then
    (mkRpcResponse RpcResult req.origin
      (RpcPayload.rpcError (-32000) ("Faucet error: " ++ status2)) body.id (some 400), eff1)
  else
  let eff2 : Effects := { eff1 with sentTxs := [⟨address, toHex claimAmount, "fast", 21000⟩] }
  match w.txId with
  | Option.none =>
    (mkRpcResponse RpcResult req.origin (RpcPayload.rpcError (-32000) "Transaction failed")
      body.id (some 400), eff2)
  | some tid =>
  if tid = "" then
    (mkRpcResponse RpcResult req.origin (RpcPayload.rpcError (-32000) "Transaction failed")
      body.id (some 400), eff2)
  else
    let eff3 : Effects := { eff2 with kvPuts := [⟨key, w.now, claimInterval / 1000⟩] }
    (mkRpcResponse RpcResult req.origin (RpcPayload.success (RpcResult.txResult tid))
      body.id Option.none, eff3)

/-- The ledger key `{network}/{address}` used by the handler. -/
def keyOf (network : SupportedNetwork) (address : String) : String :=
  networkName network ++ "/" ++ address

/-- The parsed last-use timestamp: `v ? parseInt(v, 10) : 0`. -/
def lastUsedOf (w : World) (k : String) : Nat := (w.kv k).getD 0

/-- `hasClaimed = addressLastUsed && Date.now() - addressLastUsed < claimInterval`. -/
def hasClaimedOf (w : World) (network : SupportedNetwork) (address : String) : Bool :=
  lastUsedOf w (keyOf network address) != 0 &&
    decide ((w.now : Int) - (lastUsedOf w (keyOf network address) : Int)
      < (CLAIM_INTERVAL_MAP network : Int))

/-- The final value of the handler's mutable `status` variable: "out of funds"
overrides "paused", which overrides "ok". -/
def statusOf (w : World) (network : SupportedNetwork) : String :=
  if CLAIM_AMOUNT_MAP network > w.balance then "out of funds"
  else if w.relayerPaused then "paused"
  else "ok"

namespace SingleNet

/-- Single-network snapshot: `CLAIM_INTERVAL = 90 days` in milliseconds. -/
def CLAIM_INTERVAL : Nat := 1000 * 60 * 60 * 24 * 90

/-- Single-network snapshot: `CLAIM_AMOUNT = 0.25 ETH` in wei. -/
def CLAIM_AMOUNT : Nat := 250000000000000000

/-- A JavaScript value that is either a number or a string; the single-network
snapshot's `next` field mixes the two (`addressLastUsed + CLAIM_INTERVAL`
concatenates a string with a number). -/
inductive JsVal where
  | num (n : Nat)
  | str (s : String)
deriving DecidableEq, Repr

/-- The `result` shapes of the single-network handler. -/
inductive VResult where
  | statusResult (status : String)
  | getAddressResult (eligible : Bool) (next : JsVal) (status : String)
  | txResult (id : String)
deriving DecidableEq, Repr

/-- The collaborators of the single-network snapshot.  KV values are the parsed
timestamps: the source stores `Date.now().toString()` and reads back through
`parseInt`; a stored value `n` stands for the string `Nat.repr n`. -/
structure World where
  relayerPaused : Bool
  balance : Nat
  kv : String → Option Nat
  account : String → Option AccountData
  txId : Option String
  now : Nat

/-- `checkHasName` of the single-network snapshot (same code as the
multi-network one). -/
def checkHasName (w : World) (address : String) : Bool :=
  match w.account (jsToLower address) with
  | Option.none => false
  | some a =>
    a.domains.length > 0 || a.registrations.length > 0 || a.wrappedDomains.length > 0

/-- A hexadecimal digit as accepted by the validation regex. -/
def isHexChar (c : Char) : Bool :=
  c.isDigit || (Nat.ble 97 c.toNat && Nat.ble c.toNat 102) ||
    (Nat.ble 65 c.toNat && Nat.ble c.toNat 70)

/-- The validation regex of the single-network snapshot: `^0x[a-fA-F0-9]\x7b40\x7d$`. -/
def matchesAddressPattern (s : String) : Bool :=
  match s.data with
  | '0' :: 'x' :: rest => rest.length == 40 && rest.all isHexChar
  | _ => false

/-- Collaborator calls performed by a single-network handler run.  `kvPuts`
pairs are (key, timestamp); the source's `put` call passes no TTL. -/
structure VEffects where
  gotRelayer : Bool
  queriedBalance : Bool
  kvGets : List String
  accountQueries : List String
  sentTxs : List TxRequest
  kvPuts : List (String × Nat)
deriving DecidableEq, Repr

def vNoEffects : VEffects :=
  { gotRelayer := false, queriedBalance := false, kvGets := [], accountQueries := [],
    sentTxs := [], kvPuts := [] }

/-- The `fetch` handler of the single-network snapshot (the second file embedded
in `src/helpers.ts`): no network path segment is accepted, the address is
validated by regex only (no checksumming), the ledger is read at the
lower-cased address first with a fallback to the raw address only when the two
differ, and the ledger write uses the raw request address with no TTL. -/
def fetchHandler (req : FaucetRequest) (w : World) : HttpResponse VResult × VEffects :=
  if req.paths ≠ [] then
    (mkResponse VResult req.origin (some (BodyInit0.str ("Not Found"))) (some 404) false,
      vNoEffects)
  else if req.httpMethod = "OPTIONS" then
    (mkResponse VResult req.origin Option.none Option.none false, vNoEffects)
  else if req.httpMethod ≠ "POST" then
    (mkResponse VResult req.origin
      (some (BodyInit0.str ("Unsupported method: " ++ req.httpMethod))) (some 405) false,
      vNoEffects)
  else
  match req.body with
  | Option.none =>
    (mkRpcResponse VResult req.origin (RpcPayload.rpcError (-32600) "Invalid Request")
      RpcId.null (some 400), vNoEffects)
  | some body =>
  if body.jsonrpc = "" || body.method = "" || body.params.isNone then
    (mkRpcResponse VResult req.origin (RpcPayload.rpcError (-32600) "Invalid Request")
      body.id (some 400), vNoEffects)
  else if ¬ SUPPORTED_METHODS.contains body.method then
    (mkRpcResponse VResult req.origin (RpcPayload.rpcError (-32601) "Method not found")
      body.id (some 404), vNoEffects)
  else
  -- status determination; all three `if (returnOnStatusChange) returnStatus();`
  -- call sites discard the constructed Response, exactly as in the
  -- multi-network snapshot, so control always falls through
  let status1 := if w.relayerPaused then "paused" else "ok"
  let status2 := if CLAIM_AMOUNT > w.balance then "out of funds" else status1
  let eff0 : VEffects := { vNoEffects with gotRelayer := true, queriedBalance := true }
  match (body.params.getD []).head? with
  | Option.none =>
    -- `!address` with address undefined
    (mkRpcResponse VResult req.origin (RpcPayload.rpcError (-32000) "Invalid address")
      body.id (some 400), eff0)
  | some address =>
  if !matchesAddressPattern address then
    -- `!address || !address.match(/^0x[a-fA-F0-9]\x7b40\x7d$/)`; the empty
    -- string (the other falsy string) also fails the pattern
    (mkRpcResponse VResult req.origin (RpcPayload.rpcError (-32000) "Invalid address")
      body.id (some 400), eff0)
  else
  let addressLowerCase := jsToLower address
  let fromLower := w.kv addressLowerCase
  let addressLastUsed : Option Nat :=
    match fromLower with
    | some v => some v
    | Option.none => if addressLowerCase = address then Option.none else w.kv address
  let hasClaimed :=
    addressLastUsed.isSome &&
      decide ((w.now : Int) - (addressLastUsed.getD 0 : Int) < (CLAIM_INTERVAL : Int))
  let hasName := checkHasName w address
  let eff1 : VEffects :=
    { eff0 with
      kvGets := addressLowerCase ::
        (if fromLower.isNone && addressLowerCase ≠ address then [address] else []),
      accountQueries := [addressLowerCase] }
  if body.method = "faucet_getAddress" then
    if hasClaimed then
      -- `next: addressLastUsed + CLAIM_INTERVAL` is string + number, i.e.
      -- string concatenation of the stored string with the decimal interval
      (mkRpcResponse VResult req.origin
        (RpcPayload.success (VResult.getAddressResult false
          (JsVal.str (Nat.repr (addressLastUsed.getD 0) ++ Nat.repr CLAIM_INTERVAL))
          status2))
        body.id Option.none, eff1)
    else
      (mkRpcResponse VResult req.origin
        (RpcPayload.success (VResult.getAddressResult hasName (JsVal.num 0) status2))
        body.id Option.none, eff1)
  else
  if hasClaimed then
    (mkRpcResponse VResult req.origin
      (RpcPayload.rpcError (-32000) "Address has already claimed") body.id (some 400), eff1)
  else if !hasName then
    (mkRpcResponse VResult req.origin
      (RpcPayload.rpcError (-32000) "Address does not own a name on mainnet")
      body.id (some 400), eff1)
  else if status2 ≠ "ok" then
    (mkRpcResponse VResult req.origin
      (RpcPayload.rpcError (-32000) ("Faucet error: " ++ status2)) body.id (some 400), eff1)
  else
  let eff2 : VEffects := { eff1 with sentTxs := [⟨address, toHex CLAIM_AMOUNT, "fast", 21000⟩] }
  match w.txId with
  | Option.none =>
    (mkRpcResponse VResult req.origin (RpcPayload.rpcError (-32000) "Transaction failed")
      body.id (some 400), eff2)
  | some tid =>
  if tid = "" then
    (mkRpcResponse VResult req.origin (RpcPayload.rpcError (-32000) "Transaction failed")
      body.id (some 400), eff2)
  else
    -- line 295: `await env.USED_ADDRESS_KV.put(body.params[0], Date.now().toString())`
    -- — raw request address as the key, and no expirationTtl option
    let eff3 : VEffects := { eff2 with kvPuts := [(address, w.now)] }
    (mkRpcResponse VResult req.origin (RpcPayload.success (VResult.txResult tid))
      body.id Option.none, eff3)

end SingleNet

/-- A well-formed POST request with the given path, origin, id, method and params. -/
def mkPostReq (paths : List String) (origin : String) (id : RpcId) (method : String)
    (params : List String) : FaucetRequest :=
  { paths := paths, httpMethod := "POST", origin := origin
    body := some { jsonrpc := "2.0", id := id, method := method, params := some params } }

/-- C2: a ClaimRecord younger than the claim interval blocks the payout: the
faucet_request is rejected with -32000 "Address has already claimed" (HTTP 400)
with no sendTransaction call and no ledger write, and faucet_getAddress reports
eligible = false. -/
theorem claim_record_blocks_payout (paths : List String) (origin : String) (id : RpcId)
    (raw address : String) (w : World) (network : SupportedNetwork) (t : Nat)
    (hnet : parseNetwork paths = some network)
    (haddr : w.getAddr raw = some address)
    (hrec : w.kv (keyOf network address) = some t)
    (ht : 0 < t)
    (hyoung : (w.now : Int) - (t : Int) < (CLAIM_INTERVAL_MAP network : Int)) :
    (fetchHandler (mkPostReq paths origin id ("faucet_request") [raw]) w).1 =
        mkRpcResponse RpcResult origin
          (RpcPayload.rpcError (-32000) "Address has already claimed") id (some 400) ∧
      (fetchHandler (mkPostReq paths origin id ("faucet_request") [raw]) w).2.sentTxs = [] ∧
      (fetchHandler (mkPostReq paths origin id ("faucet_request") [raw]) w).2.kvPuts = [] ∧
      (fetchHandler (mkPostReq paths origin id ("faucet_getAddress") [raw]) w).1 =
        mkRpcResponse RpcResult origin
          (RpcPayload.success (RpcResult.getAddressResult false
            (toHex (CLAIM_AMOUNT_MAP network)) (CLAIM_INTERVAL_MAP network)
            (t + CLAIM_INTERVAL_MAP network) (statusOf w network)))
          id Option.none := by
  have hkey : w.kv (networkName network ++ "/" ++ address) = some t := hrec
  have ht' : (t != 0) = true := by simp [Nat.pos_iff_ne_zero.mp ht]
  have hy : (decide ((w.now : Int) - (t : Int) < (CLAIM_INTERVAL_MAP network : Int))) = true := by
    exact decide_eq_true hyoung
  refine ⟨?_, ?_, ?_, ?_⟩ <;>
    simp [fetchHandler, mkPostReq, hnet, haddr, hkey, ht', hy, SUPPORTED_METHODS, statusOf,
      noEffects, Nat.pos_iff_ne_zero.mp ht, hyoung]

/-- A healthy demo world: relayer running, funded, a known valid address
`"0xabc"` checksumming to `"0xAbC"`, empty ledger, name owned, relayer returning
a transaction id. -/
def demoWorld : World :=
  { relayerPaused := false
    relayerAddress := "0xrelay"
    balance := 1000000000000000000
    getAddr := fun s => if s = "0xabc" then some ("0xAbC") else Option.none
    kv := fun _ => Option.none
    account := fun _ => some ⟨["d"], [], []⟩
    txId := some ("0xtxid")
    now := 1700000000000 }

/-- C1: the code never returns the `faucet_status` success result.  All three
`if (returnOnStatusChange) returnStatus();` statements in the source discard
the constructed response instead of returning it, so a well-formed
`faucet_status` request with `params: []` falls through to address validation
and gets JSON-RPC error -32000 "Invalid address" with HTTP 400 — never the
claimed `{status, amount, interval}` success result. -/
theorem faucet_status_never_returns_status :
    (fetchHandler (mkPostReq ["goerli"] "" (RpcId.num 1) "faucet_status" []) demoWorld).1 =
        mkRpcResponse RpcResult ("") (RpcPayload.rpcError (-32000) "Invalid address")
          (RpcId.num 1) (some 400) ∧
      ∀ st amt iv,
        (fetchHandler (mkPostReq ["goerli"] "" (RpcId.num 1) "faucet_status" []) demoWorld).1.body ≠
          OutBody.passthrough (BodyInit0.rpcJson
            (RpcPayload.success (RpcResult.statusResult st amt iv)) (RpcId.num 1)) := by
  refine ⟨by decide, ?_⟩
  intro st amt iv
  have hb :
      (fetchHandler (mkPostReq ["goerli"] "" (RpcId.num 1) "faucet_status" []) demoWorld).1.body =
        OutBody.passthrough (BodyInit0.rpcJson
          (RpcPayload.rpcError (-32000) "Invalid address") (RpcId.num 1)) := by decide
  simp [hb]

/-- C2 witness: a goerli record written at t = 5 with the clock at 10 blocks the
payout for the concrete address `0xAbC`. -/
theorem claim_record_blocks_payout_witness :
    parseNetwork ["goerli"] = some SupportedNetwork.goerli ∧
      ({ demoWorld with
          kv := fun k => if k = "goerli/0xAbC" then some 5 else Option.none
          now := 10 } : World).getAddr ("0xabc") = some ("0xAbC") ∧
      ({ demoWorld with
          kv := fun k => if k = "goerli/0xAbC" then some 5 else Option.none
          now := 10 } : World).kv (keyOf SupportedNetwork.goerli ("0xAbC")) = some 5 ∧
      0 < 5 ∧
      ((10 : Int) - (5 : Int) < (CLAIM_INTERVAL_MAP SupportedNetwork.goerli : Int)) ∧
      (fetchHandler (mkPostReq ["goerli"] "" RpcId.null ("faucet_request") ["0xabc"])
          { demoWorld with
            kv := fun k => if k = "goerli/0xAbC" then some 5 else Option.none
            now := 10 }).1 =
        mkRpcResponse RpcResult ("")
          (RpcPayload.rpcError (-32000) "Address has already claimed") RpcId.null (some 400) :=
  ⟨rfl, rfl, rfl, by decide, by decide,
    (claim_record_blocks_payout ["goerli"] "" RpcId.null ("0xabc") "0xAbC"
      { demoWorld with
        kv := fun k => if k = "goerli/0xAbC" then some 5 else Option.none
        now := 10 }
      SupportedNetwork.goerli 5 rfl rfl rfl (by decide) (by decide)).1⟩

/-- C7: a request whose address parameter is missing or rejected by
`getAddress` yields -32000 "Invalid address" with HTTP 400 and performs no
collaborator call beyond the status check: no ledger read, no subgraph query,
no sendTransaction, no ledger write. -/
theorem invalid_address_no_side_effects (paths : List String) (origin : String) (id : RpcId)
    (method : String) (params : List String) (w : World) (network : SupportedNetwork)
    (hnet : parseNetwork paths = some network)
    (hm : method = "faucet_getAddress" ∨ method = "faucet_request")
    (hbad : ∀ raw, params.head? = some raw → w.getAddr raw = Option.none) :
    fetchHandler (mkPostReq paths origin id method params) w =
      (mkRpcResponse RpcResult origin (RpcPayload.rpcError (-32000) "Invalid address")
        id (some 400),
       { noEffects with gotRelayer := true, queriedBalance := true }) := by
  rcases hp : params.head? with _ | raw
  · rcases hm with hm | hm <;>
      simp [fetchHandler, mkPostReq, hnet, hm, hp, SUPPORTED_METHODS]
  · have hb := hbad raw hp
    rcases hm with hm | hm <;>
      simp [fetchHandler, mkPostReq, hnet, hm, hp, hb, SUPPORTED_METHODS]

/-- C7 witness: the malformed address "not-an-address" is rejected with no side
effects for the concrete demo world. -/
theorem invalid_address_no_side_effects_witness :
    parseNetwork ["sepolia"] = some SupportedNetwork.sepolia ∧
      ("faucet_request" = "faucet_getAddress" ∨ "faucet_request" = "faucet_request") ∧
      (∀ raw, ["not-an-address"].head? = some raw → demoWorld.getAddr raw = Option.none) ∧
      fetchHandler (mkPostReq ["sepolia"] "" (RpcId.num 7) "faucet_request" ["not-an-address"])
          demoWorld =
        (mkRpcResponse RpcResult ("") (RpcPayload.rpcError (-32000) "Invalid address")
          (RpcId.num 7) (some 400),
         { noEffects with gotRelayer := true, queriedBalance := true }) :=
  ⟨rfl, Or.inr rfl,
    fun raw h => by
      simp only [List.head?] at h
      cases h
      rfl,
    invalid_address_no_side_effects ["sepolia"] "" (RpcId.num 7) "faucet_request"
      ["not-an-address"] demoWorld SupportedNetwork.sepolia rfl (Or.inr rfl)
      (fun raw h => by
        simp only [List.head?] at h
        cases h
        rfl)⟩

/-- C4: `faucet_getAddress` semantics.  The response is the ineligible record
`{eligible: false, amount, interval, next: timestamp + interval, status}` when
`hasClaimed`, and `{eligible: hasName, amount, interval, next: 0, status}`
otherwise; `hasClaimed` holds exactly when a record exists (with its real,
positive timestamp) and is younger than the claim interval; at the boundary an
exactly-interval-old claim is eligible again while an interval-minus-1ms-old
claim is not. -/
theorem get_address_semantics (paths : List String) (origin : String) (id : RpcId)
    (raw address : String) (w : World) (network : SupportedNetwork)
    (hnet : parseNetwork paths = some network)
    (haddr : w.getAddr raw = some address) :
    ((fetchHandler (mkPostReq paths origin id ("faucet_getAddress") [raw]) w).1 =
      if hasClaimedOf w network address then
        mkRpcResponse RpcResult origin
          (RpcPayload.success (RpcResult.getAddressResult false
            (toHex (CLAIM_AMOUNT_MAP network)) (CLAIM_INTERVAL_MAP network)
            (lastUsedOf w (keyOf network address) + CLAIM_INTERVAL_MAP network)
            (statusOf w network))) id Option.none
      else
        mkRpcResponse RpcResult origin
          (RpcPayload.success (RpcResult.getAddressResult (checkHasName w address)
            (toHex (CLAIM_AMOUNT_MAP network)) (CLAIM_INTERVAL_MAP network) 0
            (statusOf w network))) id Option.none) ∧
    (w.kv (keyOf network address) = Option.none → hasClaimedOf w network address = false) ∧
    (∀ t : Nat, w.kv (keyOf network address) = some t → 0 < t →
      hasClaimedOf w network address =
        decide ((w.now : Int) - (t : Int) < (CLAIM_INTERVAL_MAP network : Int))) ∧
    (∀ t : Nat, w.kv (keyOf network address) = some t → 0 < t →
      checkHasName w address = true →
      (fetchHandler (mkPostReq paths origin id ("faucet_getAddress") [raw])
          { w with now := t + CLAIM_INTERVAL_MAP network }).1 =
        mkRpcResponse RpcResult origin
          (RpcPayload.success (RpcResult.getAddressResult true
            (toHex (CLAIM_AMOUNT_MAP network)) (CLAIM_INTERVAL_MAP network) 0
            (statusOf w network))) id Option.none) ∧
    (∀ t : Nat, w.kv (keyOf network address) = some t → 0 < t →
      (fetchHandler (mkPostReq paths origin id ("faucet_getAddress") [raw])
          { w with now := t + CLAIM_INTERVAL_MAP network - 1 }).1 =
        mkRpcResponse RpcResult origin
          (RpcPayload.success (RpcResult.getAddressResult false
            (toHex (CLAIM_AMOUNT_MAP network)) (CLAIM_INTERVAL_MAP network)
            (t + CLAIM_INTERVAL_MAP network) (statusOf w network))) id Option.none) := by
  refine ⟨?_, ?_, ?_, ?_, ?_⟩
  · cases hc : hasClaimedOf w network address with
    | false =>
      have hc' : ((w.kv (networkName network ++ "/" ++ address)).getD 0 != 0 &&
          decide ((w.now : Int) - ((w.kv (networkName network ++ "/" ++ address)).getD 0 : Int)
            < (CLAIM_INTERVAL_MAP network : Int))) = false := hc
      simp [fetchHandler, mkPostReq, hnet, haddr, hc', hc, SUPPORTED_METHODS, statusOf,
        lastUsedOf, keyOf]
    | true =>
      have hc' : ((w.kv (networkName network ++ "/" ++ address)).getD 0 != 0 &&
          decide ((w.now : Int) - ((w.kv (networkName network ++ "/" ++ address)).getD 0 : Int)
            < (CLAIM_INTERVAL_MAP network : Int))) = true := hc
      simp [fetchHandler, mkPostReq, hnet, haddr, hc', hc, SUPPORTED_METHODS, statusOf,
        lastUsedOf, keyOf]
  · intro hnone
    simp [hasClaimedOf, lastUsedOf, hnone]
  · intro t hrec ht
    simp [hasClaimedOf, lastUsedOf, hrec, Nat.pos_iff_ne_zero.mp ht]
  · intro t hrec ht hname
    have hkey : w.kv (networkName network ++ "/" ++ address) = some t := hrec
    have hlt : ¬ (((t + CLAIM_INTERVAL_MAP network : Nat) : Int) - (t : Int)
        < (CLAIM_INTERVAL_MAP network : Int)) := by omega
    have hname' : checkHasName { w with now := t + CLAIM_INTERVAL_MAP network } address = true :=
      hname
    simp [fetchHandler, mkPostReq, hnet, haddr, hkey, hname', hlt, SUPPORTED_METHODS,
      statusOf]
  · intro t hrec ht
    have hkey : w.kv (networkName network ++ "/" ++ address) = some t := hrec
    have hne : (t != 0) = true := by simp [Nat.pos_iff_ne_zero.mp ht]
    have hlt : ((t + CLAIM_INTERVAL_MAP network - 1 : Nat) : Int) - (t : Int)
        < (CLAIM_INTERVAL_MAP network : Int) := by omega
    simp [fetchHandler, mkPostReq, hnet, haddr, hkey, hne, hlt, SUPPORTED_METHODS, statusOf]

/-- A world holding a goerli claim record for `0xAbC` written at timestamp 5,
with the clock at 10. -/
def boundaryWorld : World :=
  { demoWorld with
    kv := fun k => if k = "goerli/0xAbC" then some 5 else Option.none
    now := 10 }

/-- C4 witness: the record written at t = 5 makes `0xAbC` ineligible at the
clock 10, and still ineligible one millisecond before the interval elapses. -/
theorem get_address_semantics_witness :
    parseNetwork ["goerli"] = some SupportedNetwork.goerli ∧
      boundaryWorld.getAddr ("0xabc") = some ("0xAbC") ∧
      ((fetchHandler (mkPostReq ["goerli"] "" RpcId.null ("faucet_getAddress") ["0xabc"])
          boundaryWorld).1 =
        if hasClaimedOf boundaryWorld SupportedNetwork.goerli ("0xAbC") then
          mkRpcResponse RpcResult ("")
            (RpcPayload.success (RpcResult.getAddressResult false
              (toHex (CLAIM_AMOUNT_MAP SupportedNetwork.goerli))
              (CLAIM_INTERVAL_MAP SupportedNetwork.goerli)
              (lastUsedOf boundaryWorld (keyOf SupportedNetwork.goerli ("0xAbC")) +
                CLAIM_INTERVAL_MAP SupportedNetwork.goerli)
              (statusOf boundaryWorld SupportedNetwork.goerli))) RpcId.null Option.none
        else
          mkRpcResponse RpcResult ("")
            (RpcPayload.success (RpcResult.getAddressResult
              (checkHasName boundaryWorld ("0xAbC"))
              (toHex (CLAIM_AMOUNT_MAP SupportedNetwork.goerli))
              (CLAIM_INTERVAL_MAP SupportedNetwork.goerli) 0
              (statusOf boundaryWorld SupportedNetwork.goerli))) RpcId.null Option.none) ∧
      boundaryWorld.kv (keyOf SupportedNetwork.goerli ("0xAbC")) = some 5 ∧
      0 < 5 ∧
      (fetchHandler (mkPostReq ["goerli"] "" RpcId.null ("faucet_getAddress") ["0xabc"])
          { boundaryWorld with
            now := 5 + CLAIM_INTERVAL_MAP SupportedNetwork.goerli - 1 }).1 =
        mkRpcResponse RpcResult ("")
          (RpcPayload.success (RpcResult.getAddressResult false
            (toHex (CLAIM_AMOUNT_MAP SupportedNetwork.goerli))
            (CLAIM_INTERVAL_MAP SupportedNetwork.goerli)
            (5 + CLAIM_INTERVAL_MAP SupportedNetwork.goerli)
            (statusOf boundaryWorld SupportedNetwork.goerli))) RpcId.null Option.none :=
  ⟨rfl, rfl,
    (get_address_semantics ["goerli"] "" RpcId.null ("0xabc") "0xAbC" boundaryWorld
      SupportedNetwork.goerli rfl rfl).1,
    rfl, by decide,
    (get_address_semantics ["goerli"] "" RpcId.null ("0xabc") "0xAbC" boundaryWorld
      SupportedNetwork.goerli rfl rfl).2.2.2.2 5 rfl (by decide)⟩

/-- The `faucet_request` decision procedure as the specification words it:
reject on `hasClaimed`, then on `!hasName`, then on `status != "ok"`; only then
send, and fail with "Transaction failed" when no transaction identifier comes
back.  Compared against the handler in the C3 theorem. -/
def specRequestOutcome (hasClaimed hasName : Bool) (status : String)
    (txId : Option String) : RpcPayload RpcResult × Option Nat :=
  if hasClaimed then
    (RpcPayload.rpcError (-32000) "Address has already claimed", some 400)
  else if !hasName then
    (RpcPayload.rpcError (-32000) "Address does not own a name on mainnet", some 400)
  else if status ≠ "ok" then
    (RpcPayload.rpcError (-32000) ("Faucet error: " ++ status), some 400)
  else
    match txId with
    | some tid =>
      if tid = "" then (RpcPayload.rpcError (-32000) "Transaction failed", some 400)
      else (RpcPayload.success (RpcResult.txResult tid), Option.none)
    | Option.none => (RpcPayload.rpcError (-32000) "Transaction failed", some 400)

/-- C3: a `faucet_request` with a valid address follows exactly the specified
rejection order (`hasClaimed`, then `!hasName`, then `status != "ok"`, then a
missing transaction identifier), and the relayer is invoked — with the claim
amount, "fast" speed and gas limit 21000 — exactly when all three checks
pass. -/
theorem faucet_request_check_order (paths : List String) (origin : String) (id : RpcId)
    (raw address : String) (w : World) (network : SupportedNetwork)
    (hnet : parseNetwork paths = some network)
    (haddr : w.getAddr raw = some address) :
    (fetchHandler (mkPostReq paths origin id ("faucet_request") [raw]) w).1 =
        mkRpcResponse RpcResult origin
          (specRequestOutcome (hasClaimedOf w network address) (checkHasName w address)
            (statusOf w network) w.txId).1
          id
          (specRequestOutcome (hasClaimedOf w network address) (checkHasName w address)
            (statusOf w network) w.txId).2 ∧
      (fetchHandler (mkPostReq paths origin id ("faucet_request") [raw]) w).2.sentTxs =
        (if hasClaimedOf w network address = false ∧ checkHasName w address = true ∧
            statusOf w network = "ok"
         then [⟨address, toHex (CLAIM_AMOUNT_MAP network), "fast", 21000⟩] else []) := by
  cases hc : hasClaimedOf w network address with
  | true =>
    have hc' : ((w.kv (networkName network ++ "/" ++ address)).getD 0 != 0 &&
        decide ((w.now : Int) - ((w.kv (networkName network ++ "/" ++ address)).getD 0 : Int)
          < (CLAIM_INTERVAL_MAP network : Int))) = true := hc
    simp [fetchHandler, mkPostReq, hnet, haddr, hc', hc, specRequestOutcome,
      SUPPORTED_METHODS, noEffects]
  | false =>
    have hc' : ((w.kv (networkName network ++ "/" ++ address)).getD 0 != 0 &&
        decide ((w.now : Int) - ((w.kv (networkName network ++ "/" ++ address)).getD 0 : Int)
          < (CLAIM_INTERVAL_MAP network : Int))) = false := hc
    cases hn : checkHasName w address with
    | false =>
      simp [fetchHandler, mkPostReq, hnet, haddr, hc', hc, hn, specRequestOutcome,
        SUPPORTED_METHODS, noEffects]
    | true =>
      by_cases hs : statusOf w network = "ok"
      · rcases htx : w.txId with _ | tid
        · simp [statusOf] at hs
          simp [fetchHandler, mkPostReq, hnet, haddr, hc', hc, hn, htx, hs,
            specRequestOutcome, statusOf, SUPPORTED_METHODS, noEffects]
        · by_cases htid : tid = ""
          · simp [statusOf] at hs
            simp [fetchHandler, mkPostReq, hnet, haddr, hc', hc, hn, htx, htid, hs,
              specRequestOutcome, statusOf, SUPPORTED_METHODS, noEffects]
          · simp [statusOf] at hs
            simp [fetchHandler, mkPostReq, hnet, haddr, hc', hc, hn, htx, htid, hs,
              specRequestOutcome, statusOf, SUPPORTED_METHODS, noEffects]
      · simp [statusOf] at hs
        simp [fetchHandler, mkPostReq, hnet, haddr, hc', hc, hn, hs,
          specRequestOutcome, statusOf, SUPPORTED_METHODS, noEffects]

/-- C3 witness: in the healthy demo world all three checks pass, the relayer is
invoked for 0.5 goerli ETH at "fast" speed with gas limit 21000, and the
response carries the relayer's transaction id. -/
theorem faucet_request_check_order_witness :
    parseNetwork ["goerli"] = some SupportedNetwork.goerli ∧
      demoWorld.getAddr ("0xabc") = some ("0xAbC") ∧
      (fetchHandler (mkPostReq ["goerli"] "" (RpcId.num 2) "faucet_request" ["0xabc"])
          demoWorld).1 =
        mkRpcResponse RpcResult ("")
          (specRequestOutcome (hasClaimedOf demoWorld SupportedNetwork.goerli ("0xAbC"))
            (checkHasName demoWorld ("0xAbC")) (statusOf demoWorld SupportedNetwork.goerli)
            demoWorld.txId).1
          (RpcId.num 2)
          (specRequestOutcome (hasClaimedOf demoWorld SupportedNetwork.goerli ("0xAbC"))
            (checkHasName demoWorld ("0xAbC")) (statusOf demoWorld SupportedNetwork.goerli)
            demoWorld.txId).2 ∧
      (fetchHandler (mkPostReq ["goerli"] "" (RpcId.num 2) "faucet_request" ["0xabc"])
          demoWorld).2.sentTxs =
        (if hasClaimedOf demoWorld SupportedNetwork.goerli ("0xAbC") = false ∧
            checkHasName demoWorld ("0xAbC") = true ∧
            statusOf demoWorld SupportedNetwork.goerli = "ok"
         then [⟨"0xAbC", toHex (CLAIM_AMOUNT_MAP SupportedNetwork.goerli), "fast", 21000⟩]
         else []) :=
  ⟨rfl, rfl,
    (faucet_request_check_order ["goerli"] "" (RpcId.num 2) "0xabc" "0xAbC" demoWorld
      SupportedNetwork.goerli rfl rfl).1,
    (faucet_request_check_order ["goerli"] "" (RpcId.num 2) "0xabc" "0xAbC" demoWorld
      SupportedNetwork.goerli rfl rfl).2⟩

/-- C5: round-trip.  A successful `faucet_request` writes exactly one
ClaimRecord, keyed `{network}/{address}`, holding the current timestamp with a
TTL of `claimInterval / 1000` seconds — the same duration as `claimInterval`
milliseconds — and an immediately following `faucet_getAddress` against the
updated ledger answers `eligible = false` with `next = timestamp + interval`. -/
theorem request_then_get_address (paths : List String) (origin : String) (id : RpcId)
    (raw address tid : String) (w : World) (network : SupportedNetwork)
    (hnet : parseNetwork paths = some network)
    (haddr : w.getAddr raw = some address)
    (hnc : hasClaimedOf w network address = false)
    (hname : checkHasName w address = true)
    (hst : statusOf w network = "ok")
    (htx : w.txId = some tid)
    (htid : tid ≠ "")
    (hnow : 0 < w.now) :
    (fetchHandler (mkPostReq paths origin id ("faucet_request") [raw]) w).1 =
        mkRpcResponse RpcResult origin (RpcPayload.success (RpcResult.txResult tid))
          id Option.none ∧
      (fetchHandler (mkPostReq paths origin id ("faucet_request") [raw]) w).2.kvPuts =
        [⟨keyOf network address, w.now, CLAIM_INTERVAL_MAP network / 1000⟩] ∧
      CLAIM_INTERVAL_MAP network / 1000 * 1000 = CLAIM_INTERVAL_MAP network ∧
      (fetchHandler (mkPostReq paths origin id ("faucet_getAddress") [raw])
          { w with kv := fun k => if k = keyOf network address then some w.now else w.kv k }).1 =
        mkRpcResponse RpcResult origin
          (RpcPayload.success (RpcResult.getAddressResult false
            (toHex (CLAIM_AMOUNT_MAP network)) (CLAIM_INTERVAL_MAP network)
            (w.now + CLAIM_INTERVAL_MAP network) (statusOf w network)))
          id Option.none := by
  have hc' : ((w.kv (networkName network ++ "/" ++ address)).getD 0 != 0 &&
      decide ((w.now : Int) - ((w.kv (networkName network ++ "/" ++ address)).getD 0 : Int)
        < (CLAIM_INTERVAL_MAP network : Int))) = false := hnc
  have hiv : 0 < CLAIM_INTERVAL_MAP network := by cases network <;> decide
  have hnz : (w.now != 0) = true := by simp [Nat.pos_iff_ne_zero.mp hnow]
  have hd : (w.now : Int) - (w.now : Int) < (CLAIM_INTERVAL_MAP network : Int) := by omega
  simp only [statusOf] at hst
  refine ⟨?_, ?_, ?_, ?_⟩
  · simp [fetchHandler, mkPostReq, hnet, haddr, hc', hname, hst, htx, htid,
      statusOf, SUPPORTED_METHODS, noEffects]
  · simp [fetchHandler, mkPostReq, hnet, haddr, hc', hname, hst, htx, htid,
      statusOf, SUPPORTED_METHODS, noEffects, keyOf]
  · cases network <;> decide
  · simp [fetchHandler, mkPostReq, hnet, haddr, hnz, hd, hiv, keyOf, statusOf,
      SUPPORTED_METHODS, noEffects]

/-- C5 witness: the concrete claim in the healthy demo world writes the record
`goerli/0xAbC ↦ 1700000000000` with TTL 604800 seconds, after which the same
address reads back ineligible with `next = 1700000000000 + 604800000`. -/
theorem request_then_get_address_witness :
    parseNetwork ["goerli"] = some SupportedNetwork.goerli ∧
      demoWorld.getAddr ("0xabc") = some ("0xAbC") ∧
      hasClaimedOf demoWorld SupportedNetwork.goerli ("0xAbC") = false ∧
      checkHasName demoWorld ("0xAbC") = true ∧
      statusOf demoWorld SupportedNetwork.goerli = "ok" ∧
      demoWorld.txId = some ("0xtxid") ∧
      "0xtxid" ≠ "" ∧
      0 < demoWorld.now ∧
      (fetchHandler (mkPostReq ["goerli"] "" (RpcId.num 3) "faucet_request" ["0xabc"])
          demoWorld).2.kvPuts =
        [⟨keyOf SupportedNetwork.goerli ("0xAbC"), demoWorld.now,
          CLAIM_INTERVAL_MAP SupportedNetwork.goerli / 1000⟩] ∧
      (fetchHandler (mkPostReq ["goerli"] "" (RpcId.num 3) "faucet_getAddress" ["0xabc"])
          { demoWorld with
            kv := fun k =>
              if k = keyOf SupportedNetwork.goerli ("0xAbC") then some demoWorld.now
              else demoWorld.kv k }).1 =
        mkRpcResponse RpcResult ("")
          (RpcPayload.success (RpcResult.getAddressResult false
            (toHex (CLAIM_AMOUNT_MAP SupportedNetwork.goerli))
            (CLAIM_INTERVAL_MAP SupportedNetwork.goerli)
            (demoWorld.now + CLAIM_INTERVAL_MAP SupportedNetwork.goerli)
            (statusOf demoWorld SupportedNetwork.goerli)))
          (RpcId.num 3) Option.none :=
  ⟨rfl, rfl, rfl, rfl, by decide, rfl, by decide, by decide,
    (request_then_get_address ["goerli"] "" (RpcId.num 3) "0xabc" "0xAbC" "0xtxid"
      demoWorld SupportedNetwork.goerli rfl rfl rfl rfl (by decide) rfl (by decide)
      (by decide)).2.1,
    (request_then_get_address ["goerli"] "" (RpcId.num 3) "0xabc" "0xAbC" "0xtxid"
      demoWorld SupportedNetwork.goerli rfl rfl rfl rfl (by decide) rfl (by decide)
      (by decide)).2.2.2⟩

/-- C6: request validation.  An unsupported first path segment yields 404 "Not
Found" (an absent segment defaults to goerli); with a good path, a non-OPTIONS
non-POST HTTP method yields 405 "Unsupported method: {method}"; an unparsable
body yields -32600 "Invalid Request" (400) with id null, a parsed body lacking
a non-empty jsonrpc/method/params likewise but echoing the body's id; and a
well-formed body with an unsupported method yields -32601 "Method not found"
(404). -/
theorem request_validation (w : World) (origin : String) :
    parseNetwork [] = some SupportedNetwork.goerli ∧
      (∀ (p : String) (rest : List String) (httpMethod : String) (body? : Option JsonRPC),
        p ≠ "goerli" → p ≠ "sepolia" →
        fetchHandler ⟨p :: rest, httpMethod, origin, body?⟩ w =
          (mkResponse RpcResult origin (some (BodyInit0.str ("Not Found"))) (some 404) false,
            noEffects)) ∧
      (∀ (paths : List String) (network : SupportedNetwork) (httpMethod : String)
          (body? : Option JsonRPC),
        parseNetwork paths = some network →
        httpMethod ≠ "OPTIONS" → httpMethod ≠ "POST" →
        fetchHandler ⟨paths, httpMethod, origin, body?⟩ w =
          (mkResponse RpcResult origin
            (some (BodyInit0.str ("Unsupported method: " ++ httpMethod))) (some 405) false,
            noEffects)) ∧
      (∀ (paths : List String) (network : SupportedNetwork),
        parseNetwork paths = some network →
        fetchHandler ⟨paths, "POST", origin, Option.none⟩ w =
          (mkRpcResponse RpcResult origin (RpcPayload.rpcError (-32600) "Invalid Request")
            RpcId.null (some 400), noEffects)) ∧
      (∀ (paths : List String) (network : SupportedNetwork) (jb : JsonRPC),
        parseNetwork paths = some network →
        (jb.jsonrpc = "" ∨ jb.method = "" ∨ jb.params = Option.none) →
        fetchHandler ⟨paths, "POST", origin, some jb⟩ w =
          (mkRpcResponse RpcResult origin (RpcPayload.rpcError (-32600) "Invalid Request")
            jb.id (some 400), noEffects)) ∧
      (∀ (paths : List String) (network : SupportedNetwork) (jb : JsonRPC),
        parseNetwork paths = some network →
        jb.jsonrpc ≠ "" → jb.method ≠ "" → jb.params ≠ Option.none →
        ¬ SUPPORTED_METHODS.contains jb.method →
        fetchHandler ⟨paths, "POST", origin, some jb⟩ w =
          (mkRpcResponse RpcResult origin (RpcPayload.rpcError (-32601) "Method not found")
            jb.id (some 404), noEffects)) := by
  refine ⟨rfl, ?_, ?_, ?_, ?_, ?_⟩
  · intro p rest httpMethod body? hp hps
    simp [fetchHandler, parseNetwork, hp, hps]
  · intro paths network httpMethod body? hnet ho hpost
    simp [fetchHandler, hnet, ho, hpost]
  · intro paths network hnet
    simp [fetchHandler, hnet]
  · intro paths network jb hnet hbad
    rcases hbad with h | h | h <;>
      simp [fetchHandler, hnet, h]
  · intro paths network jb hnet h1 h2 h3 hm
    have hm' : jb.method ∉ SUPPORTED_METHODS := by simpa using hm
    simp [fetchHandler, hnet, h1, h2, h3, Option.isNone_iff_eq_none, hm']

/-- C6 witness: the five validation rules exercised at concrete requests. -/
theorem request_validation_witness :
    fetchHandler ⟨["mainnet"], "POST", "", Option.none⟩ demoWorld =
        (mkResponse RpcResult ("") (some (BodyInit0.str ("Not Found"))) (some 404) false,
          noEffects) ∧
      fetchHandler ⟨["goerli"], "GET", "", Option.none⟩ demoWorld =
        (mkResponse RpcResult ("") (some (BodyInit0.str ("Unsupported method: GET"))) (some 405)
          false, noEffects) ∧
      fetchHandler ⟨[], "POST", "", Option.none⟩ demoWorld =
        (mkRpcResponse RpcResult ("") (RpcPayload.rpcError (-32600) "Invalid Request")
          RpcId.null (some 400), noEffects) ∧
      fetchHandler ⟨[], "POST", "",
          some { jsonrpc := "2.0", id := RpcId.num 9, method := "", params := some [] }⟩
          demoWorld =
        (mkRpcResponse RpcResult ("") (RpcPayload.rpcError (-32600) "Invalid Request")
          (RpcId.num 9) (some 400), noEffects) ∧
      fetchHandler ⟨[], "POST", "",
          some { jsonrpc := "2.0", id := RpcId.num 9, method := "eth_call", params := some [] }⟩
          demoWorld =
        (mkRpcResponse RpcResult ("") (RpcPayload.rpcError (-32601) "Method not found")
          (RpcId.num 9) (some 404), noEffects) :=
  ⟨(request_validation demoWorld ("")).2.1 ("mainnet") [] "POST" Option.none (by decide) (by decide),
    (request_validation demoWorld ("")).2.2.1 ["goerli"] SupportedNetwork.goerli ("GET")
      Option.none rfl (by decide) (by decide),
    (request_validation demoWorld ("")).2.2.2.1 [] SupportedNetwork.goerli rfl,
    (request_validation demoWorld ("")).2.2.2.2.1 [] SupportedNetwork.goerli
      { jsonrpc := "2.0", id := RpcId.num 9, method := "", params := some [] } rfl
      (Or.inr (Or.inl rfl)),
    (request_validation demoWorld ("")).2.2.2.2.2 [] SupportedNetwork.goerli
      { jsonrpc := "2.0", id := RpcId.num 9, method := "eth_call", params := some [] } rfl
      (by decide) (by decide) (by decide) (by decide)⟩

/-- Every branch of the handler builds its response through
`_makeResponse origin ...`, so the three CORS headers of every response are the
ones computed from the request's origin. -/
lemma fetchHandler_cases (req : FaucetRequest) (w : World)
    (P : HttpResponse RpcResult × Effects → Prop)
    (hstr : ∀ (s : String) (st : Option Nat) (eff : Effects),
      P (mkResponse RpcResult req.origin (some (BodyInit0.str s)) st false, eff))
    (hnull : ∀ eff : Effects,
      P (mkResponse RpcResult req.origin Option.none Option.none false, eff))
    (hrpc : ∀ (payload : RpcPayload RpcResult) (id : RpcId) (st : Option Nat) (eff : Effects),
      P (mkRpcResponse RpcResult req.origin payload id st, eff)) :
    P (fetchHandler req w) := by
  obtain ⟨paths, m, o, body?⟩ := req
  rcases hn : parseNetwork paths with _ | nw
  · simp [fetchHandler, hn]
    exact hstr _ _ _
  by_cases hm1 : m = "OPTIONS"
  · simp [fetchHandler, hn, hm1]
    exact hnull _
  by_cases hm2 : m = "POST"
  case neg =>
    simp [fetchHandler, hn, hm1, hm2]
    exact hstr _ _ _
  subst hm2
  rcases body? with _ | jb
  · simp [fetchHandler, hn, hm1]
    exact hrpc _ _ _ _
  cases hb : (decide (jb.jsonrpc = "") || decide (jb.method = "") || jb.params.isNone) with
  | true =>
    simp [fetchHandler, hn, hm1, hb]
    exact hrpc _ _ _ _
  | false =>
  cases hc : SUPPORTED_METHODS.contains jb.method with
  | false =>
    have hc0 : jb.method ∉ SUPPORTED_METHODS := by simpa using hc
    simp [fetchHandler, hn, hm1, hb, hc0]
    exact hrpc _ _ _ _
  | true =>
  have hc' : jb.method ∈ SUPPORTED_METHODS := by simpa using hc
  have hb1 : jb.jsonrpc ≠ "" := by
    intro h
    simp [h] at hb
  have hb3 : jb.params ≠ Option.none := by
    intro h
    simp [h] at hb
  have hb2 : jb.method ≠ "" := by
    intro h
    simp [h] at hb
  have hms : jb.method = "faucet_status" ∨ jb.method = "faucet_getAddress" ∨
      jb.method = "faucet_request" := by
    simpa [SUPPORTED_METHODS] using hc
  have hnm : ¬(¬jb.method = "faucet_status" ∧ ¬jb.method = "faucet_getAddress" ∧
      ¬jb.method = "faucet_request") := by
    rcases hms with h | h | h <;> simp [h]
  rcases hh : (jb.params.getD []).head? with _ | raw
  · simp [fetchHandler, hn, hm1, hb1, hb2, hb3, hnm, SUPPORTED_METHODS, hh]
    exact hrpc _ _ _ _
  rcases ha : w.getAddr raw with _ | address
  · simp [fetchHandler, hn, hm1, hb1, hb2, hb3, hnm, SUPPORTED_METHODS, hh, ha]
    exact hrpc _ _ _ _
  cases hclaim : ((w.kv (networkName nw ++ "/" ++ address)).getD 0 != 0 &&
      decide ((w.now : Int) - ((w.kv (networkName nw ++ "/" ++ address)).getD 0 : Int)
        < (CLAIM_INTERVAL_MAP nw : Int))) with
  | true =>
    by_cases hga : jb.method = "faucet_getAddress"
    · simp [fetchHandler, hn, hm1, hb1, hb2, hb3, hnm, SUPPORTED_METHODS, hh, ha, hclaim, hga]
      exact hrpc _ _ _ _
    · have hnm2 : ¬(¬jb.method = "faucet_status" ∧ ¬jb.method = "faucet_request") := by
        rcases hms with h | h | h
        · simp [h]
        · exact absurd h hga
        · simp [h]
      simp [fetchHandler, hn, hm1, hb1, hb2, hb3, hnm, hnm2, SUPPORTED_METHODS, hh, ha,
        hclaim, hga]
      exact hrpc _ _ _ _
  | false =>
  by_cases hga : jb.method = "faucet_getAddress"
  · simp [fetchHandler, hn, hm1, hb1, hb2, hb3, hnm, SUPPORTED_METHODS, hh, ha, hclaim, hga]
    exact hrpc _ _ _ _
  have hnm2 : ¬(¬jb.method = "faucet_status" ∧ ¬jb.method = "faucet_request") := by
    rcases hms with h | h | h
    · simp [h]
    · exact absurd h hga
    · simp [h]
  cases hname : checkHasName w address with
  | false =>
    simp [fetchHandler, hn, hm1, hb1, hb2, hb3, hnm, hnm2, SUPPORTED_METHODS, hh, ha, hclaim, hga, hname]
    exact hrpc _ _ _ _
  | true =>
  by_cases hst : statusOf w nw = "ok"
  case neg =>
    simp only [statusOf] at hst
    simp [fetchHandler, hn, hm1, hb1, hb2, hb3, hnm, hnm2, SUPPORTED_METHODS, hh, ha, hclaim, hga, hname, hst]
    exact hrpc _ _ _ _
  simp only [statusOf] at hst
  rcases htx : w.txId with _ | tid
  · simp [fetchHandler, hn, hm1, hb1, hb2, hb3, hnm, hnm2, SUPPORTED_METHODS, hh, ha, hclaim, hga, hname, hst, htx]
    exact hrpc _ _ _ _
  by_cases htid : tid = ""
  · simp [fetchHandler, hn, hm1, hb1, hb2, hb3, hnm, hnm2, SUPPORTED_METHODS, hh, ha, hclaim, hga, hname, hst, htx, htid]
    exact hrpc _ _ _ _
  · simp [fetchHandler, hn, hm1, hb1, hb2, hb3, hnm, hnm2, SUPPORTED_METHODS, hh, ha, hclaim, hga, hname, hst, htx, htid]
    exact hrpc _ _ _ _

lemma fetchHandler_headers (req : FaucetRequest) (w : World) :
    (fetchHandler req w).1.allowOrigin = allowOriginFor req.origin ∧
      (fetchHandler req w).1.allowMethods = "POST, OPTIONS" ∧
      (fetchHandler req w).1.allowHeaders = "Content-Type" := by
  refine fetchHandler_cases req w
    (fun r => r.1.allowOrigin = allowOriginFor req.origin ∧
      r.1.allowMethods = "POST, OPTIONS" ∧ r.1.allowHeaders = "Content-Type")
    ?_ ?_ ?_
  · intro s st eff
    exact ⟨rfl, rfl, rfl⟩
  · intro eff
    exact ⟨rfl, rfl, rfl⟩
  · intro payload id st eff
    exact ⟨rfl, rfl, rfl⟩

/-- C8: the `Access-Control-Allow-Origin` header of every response echoes the
request origin when it is exactly `http://localhost:3000` or ends in
`ens-app-v3.pages.dev` or `ens.domains`, and is the fixed production origin
otherwise; `Allow-Methods` is always "POST, OPTIONS" and `Allow-Headers` is
always "Content-Type". -/
theorem cors_origin_computation (req : FaucetRequest) (w : World) :
    (fetchHandler req w).1.allowOrigin =
        (if req.origin = "http://localhost:3000" then req.origin
         else if req.origin.endsWith ("ens-app-v3.pages.dev") ||
            req.origin.endsWith ("ens.domains") then req.origin
         else "https://alpha.ens.domains") ∧
      (fetchHandler req w).1.allowMethods = "POST, OPTIONS" ∧
      (fetchHandler req w).1.allowHeaders = "Content-Type" := by
  obtain ⟨h1, h2, h3⟩ := fetchHandler_headers req w
  refine ⟨?_, h2, h3⟩
  rw [h1]
  unfold allowOriginFor
  by_cases hl : req.origin = "http://localhost:3000"
  · simp [hl]
  · simp [hl]

/-- C10: every response, on every branch of the handler, carries the three CORS
headers, and no plain message string is ever passed through bare: every
non-null plain-text body goes out wrapped as the JSON object
`\x7b"message": body\x7d`, never as an unwrapped string. -/
theorem responses_carry_cors_and_wrap_messages (req : FaucetRequest) (w : World) :
    ((fetchHandler req w).1.allowOrigin = allowOriginFor req.origin ∧
        (fetchHandler req w).1.allowMethods = "POST, OPTIONS" ∧
        (fetchHandler req w).1.allowHeaders = "Content-Type") ∧
      ∀ s : String, (fetchHandler req w).1.body ≠ OutBody.passthrough (BodyInit0.str s) := by
  refine ⟨fetchHandler_headers req w, ?_⟩
  intro s
  refine fetchHandler_cases req w
    (fun r => r.1.body ≠ OutBody.passthrough (BodyInit0.str s)) ?_ ?_ ?_
  · intro s' st eff
    simp [mkResponse]
  · intro eff
    simp [mkResponse]
  · intro payload id st eff
    simp [mkRpcResponse, mkResponse]

/-- A mixed-case account address (40 hex digits) and its lower-cased form. -/
def addrMixed : String := "0xAbcDef1234567890aBcDef1234567890AbCdEf12"

def addrLower : String := "0xabcdef1234567890abcdef1234567890abcdef12"

/-- The single-network world before the first claim: healthy relayer, exactly
funded, empty ledger, name owned, relayer answering with transaction id
`0xtx1`, clock at 1000. -/
def vWorld1 : SingleNet.World :=
  { relayerPaused := false
    balance := SingleNet.CLAIM_AMOUNT
    kv := fun _ => Option.none
    account := fun _ => some ⟨["a"], [], []⟩
    txId := some ("0xtx1")
    now := 1000 }

/-- The world after the first claim's ledger write: the record sits under the
raw mixed-case key; the clock has advanced by one second and the relayer will
answer `0xtx2`. -/
def vWorld2 : SingleNet.World :=
  { vWorld1 with
    kv := fun k => if k = addrMixed then some 1000 else Option.none
    txId := some ("0xtx2")
    now := 2000 }

/-- C9: double-claim via case variation in the single-network snapshot.  The
first `faucet_request` with the mixed-case address succeeds and stores the
timestamp under the raw mixed-case key (with the lookup having read the
lower-cased key first and then fallen back to the raw key); a second
`faucet_request` with the lower-cased spelling of the same account address,
well within the claim interval, reads only the lower-cased key (no fallback,
as the two spellings coincide), misses the record, and succeeds again. -/
theorem case_variation_double_claim :
    (SingleNet.fetchHandler (mkPostReq [] "" RpcId.null ("faucet_request") [addrMixed])
          vWorld1).1 =
        mkRpcResponse SingleNet.VResult ("")
          (RpcPayload.success (SingleNet.VResult.txResult ("0xtx1"))) RpcId.null Option.none ∧
      (SingleNet.fetchHandler (mkPostReq [] "" RpcId.null ("faucet_request") [addrMixed])
          vWorld1).2.kvGets = [addrLower, addrMixed] ∧
      (SingleNet.fetchHandler (mkPostReq [] "" RpcId.null ("faucet_request") [addrMixed])
          vWorld1).2.kvPuts = [(addrMixed, 1000)] ∧
      (SingleNet.fetchHandler (mkPostReq [] "" RpcId.null ("faucet_request") [addrLower])
          vWorld2).1 =
        mkRpcResponse SingleNet.VResult ("")
          (RpcPayload.success (SingleNet.VResult.txResult ("0xtx2"))) RpcId.null Option.none ∧
      (SingleNet.fetchHandler (mkPostReq [] "" RpcId.null ("faucet_request") [addrLower])
          vWorld2).2.kvGets = [addrLower] ∧
      (SingleNet.fetchHandler (mkPostReq [] "" RpcId.null ("faucet_request") [addrLower])
          vWorld2).2.kvPuts = [(addrLower, 2000)] ∧
      addrLower = jsToLower addrMixed ∧
      addrMixed ≠ addrLower ∧
      ((vWorld2.now : Int) - (vWorld1.now : Int) < (SingleNet.CLAIM_INTERVAL : Int)) := by
  refine ⟨by decide, by decide, by decide, by decide, by decide, by decide, by decide,
    by decide, by decide⟩

end Faucet
